import Mathlib

/-!
Shallow embedding of src/rover/thruster_control.py (module
rover.thruster_control): the distance-to-power scaler, the thruster
mixer, the waypoint queue, and one iteration (a "tick") of the
`ThrusterControl.run` control loop, together with the effects of
`stop_thrusters`, `drive_thrusters` and `close`.

Python floats are modelled as exact rationals (every literal in the file
is a short decimal, so the real-number semantics is exact over `ℚ`).
Device calls are modelled as an explicit list of emitted thruster
actions; Python exceptions are modelled with an `Option PyError`
component (`some e` meaning the exception `e` escaped the modelled
code).  The GPS device and the geodesic utility `util.gps_coord_mdiff`
are external collaborators (not part of this repository), so a tick
takes the GPS read outcome and the coordinate difference function as
parameters.
-/

namespace Rover

/-- Constant `CONTROL_TIMEOUT = 2` (seconds). -/
def CONTROL_TIMEOUT : ℚ := 2

/-- Constant `DISTANCE_DEADBAND = 0.1` (meters). -/
def DISTANCE_DEADBAND : ℚ := 1/10

/-- Constant `FULL_PWR_DISTANCE = 10` (meters). -/
def FULL_PWR_DISTANCE : ℚ := 10

/-- Constant `MIN_PWR = 0.05` (out of 1). -/
def MIN_PWR : ℚ := 1/20

/-- Constant `MAX_MTR_PWR = 20`. -/
def MAX_MTR_PWR : ℚ := 20

/-- The offset `x = (-1 * FULL_PWR_DISTANCE * MIN_PWR) / (MIN_PWR - 1)`
computed inside `scale_m_distance`. -/
def scale_m_x : ℚ := (-1 * FULL_PWR_DISTANCE * MIN_PWR) / (MIN_PWR - 1)

/-- The expression `scale_m_distance` returns outside the deadband:
`(m/(FULL_PWR_DISTANCE+x)) + MIN_PWR`. -/
def scale_m_formula (m : ℚ) : ℚ :=
  m / (FULL_PWR_DISTANCE + scale_m_x) + MIN_PWR

/-- Function `scale_m_distance(m)` from the source: return 0 inside the
deadband, otherwise the offset linear formula. -/
def scale_m_distance (m : ℚ) : ℚ :=
  if |m| < DISTANCE_DEADBAND then 0
  else scale_m_formula m

/-- Function `scale_limit(s) = max(-1, min(1, s))`. -/
def scale_limit (s : ℚ) : ℚ :=
  max (-1) (min 1 s)

/-- A latitude/longitude pair, as the dicts `{lat: .., lon: ..}` used for
locations and targets. -/
structure Coord where
  lat : ℚ
  lon : ℚ
deriving DecidableEq

/-- The `self.movement` dict
`{x_trans: .., y_trans: .., xy_rot: .., ts: ..}`; `ts` is `None` until
the first manual command arrives. -/
structure Movement where
  x_trans : ℚ
  y_trans : ℚ
  xy_rot : ℚ
  ts : Option ℚ
deriving DecidableEq

/-- Python exceptions that the modelled code can raise. -/
inductive PyError where
  | valueError
  | attributeError
deriving DecidableEq

/-- An observable thruster effect: a `setPower`/`startPower` call on a
`BlueESC` channel (hardware mode), or a `print_debug` emission (debug
mode, when the thrusters failed to construct). -/
inductive ThrusterAction where
  | setPower (channel : String) (power : ℚ)
  | startPower (channel : String) (power : ℚ)
  | debugStopMsg
  | debugPowersMsg (f b l r : ℚ)
deriving DecidableEq

/-- The four per-channel powers computed by `drive_thrusters`. -/
structure Pwrs where
  f : ℚ
  b : ℚ
  l : ℚ
  r : ℚ
deriving DecidableEq

/-- The `pwrs` dict computed in `drive_thrusters`: mix the
(x = surge, y = lateral, rot = yaw) gains, clamp each with
`scale_limit`, scale by `MAX_MTR_PWR`. -/
def drive_thrusters_pwrs (x y rot : ℚ) : Pwrs where
  f := MAX_MTR_PWR * scale_limit (x + rot)
  b := MAX_MTR_PWR * scale_limit (x - rot)
  l := MAX_MTR_PWR * scale_limit (y + rot)
  r := MAX_MTR_PWR * scale_limit (y - rot)

/-- Insertion-ordered keys of the `self.thrusters` dict
(channels f, b, l, r). -/
def thrusterKeys : List String := ["f", "b", "l", "r"]

/-- Python tuple unpacking of a string into two targets (`k, v = s`):
it succeeds exactly when the string has two characters; otherwise it
raises `ValueError`. -/
def unpack2 (s : String) : Option (Char × Char) :=
  match s.toList with
  | [a, b] => some (a, b)
  | _ => none

/-- The loop `for k, v in self.thrusters: self.thrusters[k].setPower(0)`
of `stop_thrusters` in hardware mode.  Iterating a dict yields its KEYS,
each a one-character string, and each iteration first unpacks the key
into `(k, v)`; the unpacking of a one-character string raises
`ValueError` before any `setPower` call runs. -/
def stop_thrusters_loop (keys : List String) : List ThrusterAction × Option PyError :=
  match keys with
  | [] => ([], none)
  | k :: rest =>
    match unpack2 k with
    | none => ([], some PyError.valueError)
    | some _ =>
      let (acts, e) := stop_thrusters_loop rest
      (ThrusterAction.setPower k 0 :: acts, e)

/-- Method `stop_thrusters`: in hardware mode (`self.thrusters` is a
dict, equivalently `_DEBUG` is false) run the keys loop; in debug mode
print "Stop Thrusters.". -/
def stop_thrusters (debug : Bool) : List ThrusterAction × Option PyError :=
  if debug then ([ThrusterAction.debugStopMsg], none)
  else stop_thrusters_loop thrusterKeys

/-- Method `drive_thrusters(x, y, rot)`: compute `pwrs`, then in
hardware mode `startPower` each channel in the dict insertion order,
else print the power map. -/
def drive_thrusters (debug : Bool) (x y rot : ℚ) : List ThrusterAction :=
  let p := drive_thrusters_pwrs x y rot
  if debug then [ThrusterAction.debugPowersMsg p.f p.b p.l p.r]
  else [ThrusterAction.startPower "f" p.f, ThrusterAction.startPower "b" p.b,
        ThrusterAction.startPower "l" p.l, ThrusterAction.startPower "r" p.r]

/-- The mutable fields of a `ThrusterControl` object.  `debug` is
`_DEBUG`; the constructor sets `_DEBUG := true` exactly when the
`BlueESC` thrusters failed to construct (`self.thrusters` is then
`None`), so `isinstance(self.thrusters, dict)` is the negation of
`debug`.  `autoTargets` is the `AUTO_TARGETS` waypoint list. -/
structure TCState where
  running : Bool
  debug : Bool
  auto_force_disable : Bool
  auto_target : Option Coord
  movement : Movement
  autoTargets : List Coord
deriving DecidableEq

/-- Method `manual_control(x, y, rot)`: overwrite `self.movement` with
the new gains, timestamped with the current time. -/
def manual_control (s : TCState) (now : ℚ) (x y rot : ℚ) : TCState :=
  { s with movement := { x_trans := x, y_trans := y, xy_rot := rot, ts := some now } }

/-- Method `auto_enabled()`: false when `self.auto_target` is `None`,
else true. -/
def auto_enabled (s : TCState) : Bool :=
  s.auto_target.isSome

/-- Method `set_auto_target(lat, lon)`: if either argument is `None`,
clear `self.auto_target`; otherwise set it to the given pair. -/
def set_auto_target (s : TCState) (lat : Option ℚ) (lon : Option ℚ) : TCState :=
  match lat, lon with
  | some la, some lo => { s with auto_target := some { lat := la, lon := lo } }
  | _, _ => { s with auto_target := none }

/-- Method `get_next_auto_target()`: take `AUTO_TARGETS[0]` and delete
it; on `IndexError` (empty list) the result is `None`.  Returns the
popped element together with the remaining list. -/
def get_next_auto_target (q : List Coord) : Option Coord × List Coord :=
  match q with
  | [] => (none, [])
  | t :: rest => (some t, rest)

/-- Method `next_auto_target()`:
`self.auto_target = self.get_next_auto_target()`. -/
def next_auto_target (s : TCState) : TCState :=
  { s with auto_target := (get_next_auto_target s.autoTargets).1,
           autoTargets := (get_next_auto_target s.autoTargets).2 }

/-- Method `get_remaining_waypoints() = len(self.AUTO_TARGETS)`. -/
def get_remaining_waypoints (s : TCState) : Nat :=
  s.autoTargets.length

/-- Method `disable_auto()`: clear `self.auto_target`. -/
def disable_auto (s : TCState) : TCState :=
  { s with auto_target := none }

/-- The staleness test of `run`: the movement timestamp is `None`, or
`time.time() - ts > CONTROL_TIMEOUT`. -/
def isStale (m : Movement) (now : ℚ) : Bool :=
  match m.ts with
  | none => true
  | some ts => decide (now - ts > CONTROL_TIMEOUT)

/-- The test `all((v == 0 or k is ts-key) for k, v in self.movement.items())`:
every movement field except the timestamp key `ts` equals 0. -/
def movement_all_zero (m : Movement) : Bool :=
  decide (m.x_trans = 0) && decide (m.y_trans = 0) && decide (m.xy_rot = 0)

/-- The fixed location `{lat: 41.735, lon: -71.319}` substituted for a
failed GPS read in debug mode. -/
def GPS_FALLBACK : Coord := { lat := 41735/1000, lon := -71319/1000 }

/-- The outcome of one loop iteration: the updated object state, the
thruster actions emitted during the iteration (in order) and the
exception, if any, that escaped `run` (killing the loop thread). -/
structure TickResult where
  state : TCState
  actions : List ThrusterAction
  exn : Option PyError
deriving DecidableEq

/-- The shared tail of the autonomous branch: compute
`pos_diff_m = util.gps_coord_mdiff((loc.lat, loc.lon), (target.lat, target.lon))`
and call
`drive_thrusters(scale_m_distance(pos_diff_m[0]), scale_m_distance(pos_diff_m[1]), 0)`.
Here `self.auto_target` is still set, so the trailing manual-drive check
of the tick does not fire.  `mdiff` is the external geodesic utility. -/
def auto_drive (mdiff : Coord → Coord → ℚ × ℚ) (s : TCState) (loc target : Coord) :
    TickResult :=
  { state := s,
    actions := drive_thrusters s.debug
      (scale_m_distance (mdiff loc target).1) (scale_m_distance (mdiff loc target).2) 0,
    exn := none }

/-- The autonomous branch of the tick, from the guarded GPS read on.
`gpsRead` is the outcome of `self.gps.readLocationData()`: only
`ValueError` is caught (in debug mode the fallback location is
substituted and the computation proceeds; otherwise `stop_thrusters`
runs and the iteration ends as with `continue`); any other exception —
e.g. the `AttributeError` raised when `self.gps` is `None` — escapes
`run`. -/
def auto_branch (mdiff : Coord → Coord → ℚ × ℚ) (s : TCState)
    (gpsRead : Except PyError Coord) (target : Coord) : TickResult :=
  match gpsRead with
  | Except.error PyError.valueError =>
    if s.debug then auto_drive mdiff s GPS_FALLBACK target
    else
      { state := s, actions := (stop_thrusters s.debug).1, exn := (stop_thrusters s.debug).2 }
  | Except.error e => { state := s, actions := [], exn := some e }
  | Except.ok loc => auto_drive mdiff s loc target

/-- One iteration of the `while self.running` body of
`ThrusterControl.run` (after the `time.sleep(0.2)`), at wall-clock time
`now` and with GPS read outcome `gpsRead`:
1. staleness check — clear `auto_target`, `stop_thrusters()`, continue;
2. autonomous eligibility — if `auto_target` is not a dict, or some
   non-timestamp movement field is non-zero, or `auto_force_disable`,
   clear `auto_target`; else run the autonomous branch;
3. trailing check — if `auto_target` is `None`, drive the thrusters
   with the stored manual gains. -/
def tick (mdiff : Coord → Coord → ℚ × ℚ) (s : TCState) (now : ℚ)
    (gpsRead : Except PyError Coord) : TickResult :=
  if isStale s.movement now then
    { state := { s with auto_target := none },
      actions := (stop_thrusters s.debug).1,
      exn := (stop_thrusters s.debug).2 }
  else
    match s.auto_target with
    | none =>
      { state := { s with auto_target := none },
        actions := drive_thrusters s.debug s.movement.x_trans s.movement.y_trans s.movement.xy_rot,
        exn := none }
    | some target =>
      if !movement_all_zero s.movement || s.auto_force_disable then
        { state := { s with auto_target := none },
          actions := drive_thrusters s.debug s.movement.x_trans s.movement.y_trans s.movement.xy_rot,
          exn := none }
      else
        auto_branch mdiff s gpsRead target

/-- Autonomous eligibility as checked by step 2 of the tick:
`auto_target` is set, every non-timestamp movement field is zero, and
`auto_force_disable` is false. -/
def autoEligible (s : TCState) : Bool :=
  s.auto_target.isSome && movement_all_zero s.movement && !s.auto_force_disable

/-- Run the loop body over a list of `(now, gpsRead)` tick inputs,
accumulating the emitted actions; an exception escaping a tick kills the
loop thread, so no later tick runs. -/
def run_ticks (mdiff : Coord → Coord → ℚ × ℚ) (s : TCState)
    (inputs : List (ℚ × Except PyError Coord)) :
    TCState × List ThrusterAction × Option PyError :=
  match inputs with
  | [] => (s, [], none)
  | (now, g) :: rest =>
    let r := tick mdiff s now g
    match r.exn with
    | some e => (r.state, r.actions, some e)
    | none =>
      let (s2, acts, e2) := run_ticks mdiff r.state rest
      (s2, r.actions ++ acts, e2)

/-- Model of `close()` interleaved with the loop thread.  `close` first
calls `self.stop_thrusters()`; if that raises, `close` propagates the
exception without ever clearing `running` (the loop keeps ticking).
Otherwise `self.gps.close()` runs (raising `AttributeError` when the GPS
never connected and `self.gps` is `None`), then `running = False` and
`join()`.  Since `running` is cleared only after the zero-power call,
between the `stop_thrusters` call of `close` and the loop observing
`running = False` the loop may complete any number of further ticks —
`inflight`, whose actions follow those of `close` in the
thruster-command trace.  The result is the full action trace and the
exception, if any, escaping `close` or the loop thread. -/
def close_trace (mdiff : Coord → Coord → ℚ × ℚ) (s : TCState) (gpsConnected : Bool)
    (inflight : List (ℚ × Except PyError Coord)) :
    List ThrusterAction × Option PyError :=
  match stop_thrusters s.debug with
  | (stopActs, some err) => (stopActs, some err)
  | (stopActs, none) =>
    if gpsConnected then
      let (_, acts, e2) := run_ticks mdiff s inflight
      (stopActs ++ acts, e2)
    else (stopActs, some PyError.attributeError)

/-- A trivial stand-in for the external geodesic utility, returning a
zero offset; used to evaluate ticks at concrete inputs. -/
def mdiff0 : Coord → Coord → ℚ × ℚ := fun _ _ => (0, 0)

/-- A coordinate difference function that subtracts componentwise; used
to evaluate the autonomous computation at concrete inputs. -/
def mdiff_sub : Coord → Coord → ℚ × ℚ :=
  fun loc target => (loc.lat - target.lat, loc.lon - target.lon)

/-- Concrete state: hardware mode (thrusters constructed), an auto
target set, movement never commanded (timestamp unset). -/
def hwStaleState : TCState :=
  { running := true, debug := false, auto_force_disable := false,
    auto_target := some { lat := 1, lon := 2 },
    movement := { x_trans := 0, y_trans := 0, xy_rot := 0, ts := none },
    autoTargets := [] }

/-- Concrete state: hardware mode, auto target set, all-zero movement
freshly timestamped — eligible for the autonomous branch. -/
def hwAutoState : TCState :=
  { running := true, debug := false, auto_force_disable := false,
    auto_target := some { lat := 1, lon := 2 },
    movement := { x_trans := 0, y_trans := 0, xy_rot := 0, ts := some 0 },
    autoTargets := [] }

/-- Concrete state: debug mode, no auto target, a fresh non-zero manual
command. -/
def dbgManualState : TCState :=
  { running := true, debug := true, auto_force_disable := false,
    auto_target := none,
    movement := { x_trans := 1, y_trans := 0, xy_rot := 0, ts := some 0 },
    autoTargets := [] }

/-- Concrete state: debug mode, auto target set, but a fresh NON-zero
manual command — not eligible for the autonomous branch. -/
def dbgManualOverrideState : TCState :=
  { running := true, debug := true, auto_force_disable := false,
    auto_target := some { lat := 5, lon := 6 },
    movement := { x_trans := 1, y_trans := 0, xy_rot := 0, ts := some 0 },
    autoTargets := [] }

/-- Concrete state: two waypoints queued. -/
def wpState : TCState :=
  { running := true, debug := true, auto_force_disable := false,
    auto_target := none,
    movement := { x_trans := 0, y_trans := 0, xy_rot := 0, ts := none },
    autoTargets := [{ lat := 1, lon := 2 }, { lat := 3, lon := 4 }] }

/-- Computed value of the offset x inside `scale_m_distance`:
`x = (-1 * 10 * 0.05) / (0.05 - 1) = 10/19`. -/
lemma scale_m_x_val : scale_m_x = 10/19 := by
  norm_num [scale_m_x, FULL_PWR_DISTANCE, MIN_PWR]

/-- Closed form of the out-of-deadband branch of the scaler:
`m/(10 + 10/19) + 1/20 = 19m/200 + 1/20`. -/
lemma scale_m_formula_eval (m : ℚ) : scale_m_formula m = 19 * m / 200 + 1/20 := by
  rw [scale_m_formula, scale_m_x_val, FULL_PWR_DISTANCE, MIN_PWR]
  ring

/-- Closed form of `scale_m_distance`. -/
lemma scale_m_distance_eval (m : ℚ) :
    scale_m_distance m = if |m| < 1/10 then 0 else 19 * m / 200 + 1/20 := by
  rw [scale_m_distance, scale_m_formula_eval, DISTANCE_DEADBAND]

/-- Lower and upper bound of the clamp `scale_limit`. -/
lemma scale_limit_bounds (s : ℚ) : -1 ≤ scale_limit s ∧ scale_limit s ≤ 1 := by
  constructor
  · exact le_max_left _ _
  · exact max_le (by norm_num) (min_le_left _ _)

/-- Magnitude bound of the clamp `scale_limit`. -/
lemma abs_scale_limit_le_one (s : ℚ) : |scale_limit s| ≤ 1 :=
  abs_le.mpr (scale_limit_bounds s)

/-- Claim C1 — evidence of a code bug.  The claim says a stale tick
(timestamp unset, or older than CONTROL_TIMEOUT) clears AutoTarget,
commands zero power to all four thruster channels and issues no other
thruster command that tick.  In hardware mode (thrusters constructed,
`debug = false`) the tick instead raises `ValueError` out of
`stop_thrusters` — its loop `for k, v in self.thrusters` unpacks each
one-character dict key into two variables — before any `setPower(0)`
call, so no zero-power command is issued and the loop thread dies;
AutoTarget is cleared.  In debug mode the tick only prints and issues
no hardware command at all. -/
theorem c1_stale_failsafe_bug :
    tick mdiff0 hwStaleState 0 (Except.ok { lat := 0, lon := 0 }) =
      { state := { hwStaleState with auto_target := none }, actions := [],
        exn := some PyError.valueError } ∧
    tick mdiff0 { hwStaleState with debug := true } 0 (Except.ok { lat := 0, lon := 0 }) =
      { state := { hwStaleState with debug := true, auto_target := none },
        actions := [ThrusterAction.debugStopMsg], exn := none } :=
  ⟨rfl, rfl⟩

/-- Claim C2 — evidence of a code bug.  The claim says a failed GPS read
during an autonomous tick in non-debug mode commands zero power to all
thrusters, skips the rest of the tick and lets no exception escape the
loop, while in debug mode a fixed fallback coordinate is substituted and
the autonomous computation proceeds.  The debug half holds (second
conjunct: the fallback location (41.735, -71.319) flows into the distance
computation and a power map is emitted).  The non-debug half fails: the
`except ValueError` handler calls `stop_thrusters`, which itself raises
`ValueError` (one-character dict keys unpacked into two variables)
before any `setPower(0)`, so the tick issues no command and the
exception escapes the loop (first conjunct: actions empty, exception
escapes). -/
theorem c2_gps_failure_bug :
    tick mdiff_sub hwAutoState 1 (Except.error PyError.valueError) =
      { state := hwAutoState, actions := [], exn := some PyError.valueError } ∧
    tick mdiff_sub { hwAutoState with debug := true } 1 (Except.error PyError.valueError) =
      { state := { hwAutoState with debug := true },
        actions := [ThrusterAction.debugPowersMsg 20 20 (-20) (-20)], exn := none } := by
  constructor
  · simp [tick, isStale, movement_all_zero, auto_branch, hwAutoState, CONTROL_TIMEOUT,
          stop_thrusters, stop_thrusters_loop, thrusterKeys, unpack2]
  · have h1 : scale_m_distance (mdiff_sub GPS_FALLBACK { lat := 1, lon := 2 }).1
        = 156793/40000 := by
      rw [mdiff_sub, GPS_FALLBACK, scale_m_distance_eval]
      norm_num [abs_of_nonneg]
    have h2 : scale_m_distance (mdiff_sub GPS_FALLBACK { lat := 1, lon := 2 }).2
        = -(1383061/200000) := by
      rw [mdiff_sub, GPS_FALLBACK, scale_m_distance_eval]
      norm_num [abs_of_nonpos]
    simp [tick, isStale, movement_all_zero, auto_branch, auto_drive, hwAutoState,
          CONTROL_TIMEOUT, h1, h2, drive_thrusters, drive_thrusters_pwrs, scale_limit,
          MAX_MTR_PWR, max_def, min_def]
    norm_num

/-- Claim C3: on a tick with a fresh (non-stale) command, the autonomous
branch runs exactly when AutoTarget is set, every non-timestamp field of
the last manual command is zero, and auto_force_disable is false; when
any of these fail, AutoTarget is cleared and that same tick drives the
thrusters from the stored manual surge/lateral/yaw gains. -/
theorem c3_autonomy_arbitration (mdiff : Coord → Coord → ℚ × ℚ) (s : TCState) (now : ℚ)
    (g : Except PyError Coord) (hfresh : isStale s.movement now = false) :
    (autoEligible s = false →
      (tick mdiff s now g).state.auto_target = none ∧
      (tick mdiff s now g).actions =
        drive_thrusters s.debug s.movement.x_trans s.movement.y_trans s.movement.xy_rot) ∧
    (autoEligible s = true →
      ∃ target, s.auto_target = some target ∧
        tick mdiff s now g = auto_branch mdiff s g target) := by
  cases hT : s.auto_target with
  | none =>
    refine ⟨fun _ => ?_, fun he => ?_⟩
    · constructor <;> simp [tick, hfresh, hT]
    · exfalso
      rw [autoEligible, hT] at he
      simp at he
  | some target =>
    refine ⟨fun hel => ?_, fun he => ?_⟩
    · rw [autoEligible, hT] at hel
      simp at hel
      have hcond : (!movement_all_zero s.movement || s.auto_force_disable) = true := by
        cases hz : movement_all_zero s.movement with
        | true => simp [hz, hel hz]
        | false => simp [hz]
      constructor <;> simp [tick, hfresh, hT, hcond]
    · rw [autoEligible, hT] at he
      simp at he
      obtain ⟨hz, hf⟩ := he
      refine ⟨target, rfl, ?_⟩
      simp [tick, hfresh, hT, hz, hf]

/-- Claim C3 witness: a fresh tick whose state has an AutoTarget but a
non-zero manual command clears the target and drives manually. -/
theorem c3_witness :
    (tick mdiff0 dbgManualOverrideState 1 (Except.ok { lat := 0, lon := 0 })).state.auto_target
        = none ∧
    (tick mdiff0 dbgManualOverrideState 1 (Except.ok { lat := 0, lon := 0 })).actions =
      drive_thrusters dbgManualOverrideState.debug dbgManualOverrideState.movement.x_trans
        dbgManualOverrideState.movement.y_trans dbgManualOverrideState.movement.xy_rot :=
  (c3_autonomy_arbitration mdiff0 dbgManualOverrideState 1 (Except.ok { lat := 0, lon := 0 })
      (by norm_num [isStale, dbgManualOverrideState, CONTROL_TIMEOUT])).1
    (by norm_num [autoEligible, movement_all_zero, dbgManualOverrideState])

/-- Claim C4 counterexample: the scaler is not sign-preserving at or
beyond the deadband, and its value at -10 is -0.9, not -1.  At
d = -0.1 (|d| at the deadband) the output is 81/2000 > 0, opposite in
sign to d; and scale(-10) = -(9/10) ≠ -1. -/
theorem c4_counterexample :
    DISTANCE_DEADBAND ≤ |(-(1/10) : ℚ)| ∧
    scale_m_distance (-(1/10)) = 81/2000 ∧
    ¬ scale_m_distance (-(1/10)) < 0 ∧
    scale_m_distance (-10) = -(9/10) ∧
    scale_m_distance (-10) ≠ -1 := by
  refine ⟨by norm_num [DISTANCE_DEADBAND, abs_of_nonpos], ?_, ?_, ?_, ?_⟩ <;>
    rw [scale_m_distance_eval] <;> norm_num [abs_of_nonpos, abs_of_nonneg]

/-- Claim C4 (amended): for every distance d at or beyond the deadband
on the POSITIVE side the output is positive (sign preserved) and
scale(10) = 1; the out-of-deadband formula tends to MIN_PWR (0.05) as
d tends to 0 from above; on the negative side the +MIN_PWR offset is
still added, so scale(-10) = -(9/10), not -1, and sign is not preserved
near the deadband. -/
theorem c4_amended :
    (∀ d : ℚ, DISTANCE_DEADBAND ≤ d → 0 < scale_m_distance d) ∧
    scale_m_distance 10 = 1 ∧
    scale_m_distance (-10) = -(9/10) ∧
    (∀ ε : ℚ, 0 < ε → ∃ δ : ℚ, 0 < δ ∧ ∀ m : ℚ, 0 < m → m < δ →
      |scale_m_formula m - MIN_PWR| < ε) := by
  refine ⟨?_, ?_, ?_, ?_⟩
  · intro d hd
    rw [DISTANCE_DEADBAND] at hd
    rw [scale_m_distance_eval, if_neg]
    · linarith
    · rw [abs_of_nonneg (by linarith)]
      linarith
  · rw [scale_m_distance_eval]; norm_num [abs_of_nonneg]
  · rw [scale_m_distance_eval]; norm_num [abs_of_nonpos]
  · intro ε hε
    refine ⟨ε, hε, ?_⟩
    intro m hm hmε
    rw [scale_m_formula_eval, MIN_PWR]
    have h1 : 19 * m / 200 + 1/20 - 1/20 = 19 * m / 200 := by ring
    rw [h1, abs_of_pos (by positivity)]
    linarith

/-- Claim C4 witness: the amended theorem applied at d = 10 and ε = 1. -/
theorem c4_witness :
    0 < scale_m_distance 10 ∧
    ∃ δ : ℚ, 0 < δ ∧ ∀ m : ℚ, 0 < m → m < δ → |scale_m_formula m - MIN_PWR| < 1 :=
  ⟨c4_amended.1 10 (by norm_num [DISTANCE_DEADBAND]),
   c4_amended.2.2.2 1 (by norm_num)⟩

/-- Claim C5: inside the deadband (|d| < 0.1) the scaler returns exactly
0, for either sign; in particular at 0.05 and -0.05. -/
theorem c5_deadband_zero :
    (∀ d : ℚ, |d| < DISTANCE_DEADBAND → scale_m_distance d = 0) ∧
    scale_m_distance (1/20) = 0 ∧ scale_m_distance (-(1/20)) = 0 := by
  refine ⟨fun d hd => ?_, ?_, ?_⟩
  · rw [scale_m_distance, if_pos hd]
  · rw [scale_m_distance_eval]; norm_num [abs_of_nonneg]
  · rw [scale_m_distance_eval]; norm_num [abs_of_nonpos]

/-- Claim C5 witness: the deadband clause applied at d = 0.03. -/
theorem c5_witness : scale_m_distance (3/100) = 0 :=
  c5_deadband_zero.1 (3/100) (by rw [DISTANCE_DEADBAND, abs_of_nonneg] <;> norm_num)

/-- Claim C6 counterexample: output magnitude is NOT monotonic in |d|
outside the deadband.  With d1 = -0.1 and d2 = -0.2, both at or beyond
the deadband and |d1| < |d2|, the magnitudes are |scale(d1)| = 81/2000
and |scale(d2)| = 31/1000 < 81/2000. -/
theorem c6_counterexample :
    DISTANCE_DEADBAND ≤ |(-(1/10) : ℚ)| ∧
    DISTANCE_DEADBAND ≤ |(-(1/5) : ℚ)| ∧
    |(-(1/10) : ℚ)| < |(-(1/5) : ℚ)| ∧
    ¬ |scale_m_distance (-(1/10))| ≤ |scale_m_distance (-(1/5))| := by
  have h1 : scale_m_distance (-(1/10)) = 81/2000 := by
    rw [scale_m_distance_eval]; norm_num [abs_of_nonpos]
  have h2 : scale_m_distance (-(1/5)) = 31/1000 := by
    rw [scale_m_distance_eval]; norm_num [abs_of_nonpos]
  rw [h1, h2]
  norm_num [DISTANCE_DEADBAND, abs_of_nonpos, abs_of_nonneg]

/-- Claim C6 (amended): the output magnitude of the scaler is monotonic
in the distance on the positive side of the deadband: for
DEADBAND ≤ d1 ≤ d2, |scale(d1)| ≤ |scale(d2)|.  (On the negative side
the magnitude is not monotonic in |d|, per the counterexample.) -/
theorem c6_amended (d1 d2 : ℚ) (h1 : DISTANCE_DEADBAND ≤ d1) (h12 : d1 ≤ d2) :
    |scale_m_distance d1| ≤ |scale_m_distance d2| := by
  rw [DISTANCE_DEADBAND] at h1
  rw [scale_m_distance_eval, scale_m_distance_eval,
      if_neg (by rw [abs_of_nonneg (by linarith)]; linarith),
      if_neg (by rw [abs_of_nonneg (by linarith)]; linarith),
      abs_of_pos (by linarith), abs_of_pos (by linarith)]
  linarith

/-- Claim C6 witness: the amended theorem applied at d1 = 0.1, d2 = 1. -/
theorem c6_witness : |scale_m_distance (1/10)| ≤ |scale_m_distance 1| :=
  c6_amended (1/10) 1 (by norm_num [DISTANCE_DEADBAND]) (by norm_num)

/-- Claim C7: the mixer computes front = surge+yaw, back = surge-yaw,
left = lateral+yaw, right = lateral-yaw, clamps each raw gain to
[-1, 1] and multiplies by MAX_MTR_PWR = 20; hence every channel has
magnitude at most 20, mix(5,0,0) = mix(1,0,0),
mix(1,0,0) = (20, 20, 0, 0) and mix(0,0,1) = (20, -20, 20, -20). -/
theorem c7_mixer (x y rot : ℚ) :
    drive_thrusters_pwrs x y rot =
      { f := MAX_MTR_PWR * scale_limit (x + rot), b := MAX_MTR_PWR * scale_limit (x - rot),
        l := MAX_MTR_PWR * scale_limit (y + rot), r := MAX_MTR_PWR * scale_limit (y - rot) } ∧
    |(drive_thrusters_pwrs x y rot).f| ≤ MAX_MTR_PWR ∧
    |(drive_thrusters_pwrs x y rot).b| ≤ MAX_MTR_PWR ∧
    |(drive_thrusters_pwrs x y rot).l| ≤ MAX_MTR_PWR ∧
    |(drive_thrusters_pwrs x y rot).r| ≤ MAX_MTR_PWR ∧
    drive_thrusters_pwrs 5 0 0 = drive_thrusters_pwrs 1 0 0 ∧
    drive_thrusters_pwrs 1 0 0 = { f := MAX_MTR_PWR, b := MAX_MTR_PWR, l := 0, r := 0 } ∧
    drive_thrusters_pwrs 0 0 1 =
      { f := MAX_MTR_PWR, b := -MAX_MTR_PWR, l := MAX_MTR_PWR, r := -MAX_MTR_PWR } := by
  have key : ∀ s : ℚ, |MAX_MTR_PWR * scale_limit s| ≤ MAX_MTR_PWR := by
    intro s
    rw [abs_mul, MAX_MTR_PWR, abs_of_nonneg (by norm_num : (0:ℚ) ≤ 20)]
    have h := abs_scale_limit_le_one s
    nlinarith [abs_nonneg (scale_limit s)]
  refine ⟨rfl, key _, key _, key _, key _, ?_, ?_, ?_⟩ <;>
    simp [drive_thrusters_pwrs, scale_limit, MAX_MTR_PWR, max_def, min_def]

/-- Claim C8: the waypoint queue is FIFO.  With waypoints [A, B] queued,
successive advance calls set AutoTarget to A, then B, then none, with
the remaining count going 1, 0, 0; in general a call pops the queue
front into AutoTarget (or clears it when the queue is empty) and the
count drops by exactly one per successful pop (it is a list length, a
natural number, so it never goes below zero). -/
theorem c8_waypoint_fifo (s : TCState) (A B : Coord) (h : s.autoTargets = [A, B]) :
    ((next_auto_target s).auto_target = some A ∧
      get_remaining_waypoints (next_auto_target s) = 1) ∧
    ((next_auto_target (next_auto_target s)).auto_target = some B ∧
      get_remaining_waypoints (next_auto_target (next_auto_target s)) = 0) ∧
    ((next_auto_target (next_auto_target (next_auto_target s))).auto_target = none ∧
      get_remaining_waypoints (next_auto_target (next_auto_target (next_auto_target s))) = 0) ∧
    (∀ t : TCState, t.autoTargets ≠ [] →
      get_remaining_waypoints (next_auto_target t) = get_remaining_waypoints t - 1 ∧
      (next_auto_target t).auto_target = t.autoTargets.head?) ∧
    (∀ t : TCState, t.autoTargets = [] →
      (next_auto_target t).auto_target = none ∧
      get_remaining_waypoints (next_auto_target t) = 0) := by
  refine ⟨?_, ?_, ?_, ?_, ?_⟩
  · simp [next_auto_target, get_next_auto_target, get_remaining_waypoints, h]
  · simp [next_auto_target, get_next_auto_target, get_remaining_waypoints, h]
  · simp [next_auto_target, get_next_auto_target, get_remaining_waypoints, h]
  · intro t ht
    match hq : t.autoTargets with
    | [] => exact absurd hq ht
    | a :: rest =>
      simp [next_auto_target, get_next_auto_target, get_remaining_waypoints, hq]
  · intro t ht
    simp [next_auto_target, get_next_auto_target, get_remaining_waypoints, ht]

/-- Claim C8 witness: the FIFO theorem applied to the concrete queue
[(1,2), (3,4)]. -/
theorem c8_witness :
    (next_auto_target wpState).auto_target = some { lat := 1, lon := 2 } ∧
    get_remaining_waypoints (next_auto_target wpState) = 1 :=
  (c8_waypoint_fifo wpState { lat := 1, lon := 2 } { lat := 3, lon := 4 } rfl).1

/-- Claim C9 — evidence of a code bug.  The claim says `close` blocks
until the loop thread has finished and guarantees the last thruster
action is a zero-power command to all channels.  First conjunct: in
hardware mode `close` calls `stop_thrusters`, which raises `ValueError`
(one-character dict keys unpacked into two variables), so `close`
propagates the exception having issued NO thruster command and without
ever clearing `running` — the loop is never stopped.  Second conjunct:
even in debug mode, `running` is cleared only after the stop call, so
a tick carrying a fresh non-zero manual command can run between the
stop call of `close` and the loop observing `running = false`, leaving
a non-zero power command as the last action of the trace. -/
theorem c9_close_bug :
    close_trace mdiff0 hwAutoState true [] = ([], some PyError.valueError) ∧
    close_trace mdiff0 dbgManualState true [(1, Except.ok { lat := 0, lon := 0 })] =
      ([ThrusterAction.debugStopMsg, ThrusterAction.debugPowersMsg 20 20 0 0], none) := by
  constructor
  · rfl
  · simp [close_trace, run_ticks, tick, isStale, dbgManualState, CONTROL_TIMEOUT,
          stop_thrusters, drive_thrusters, drive_thrusters_pwrs, scale_limit, MAX_MTR_PWR,
          max_def, min_def]

/-- Claim C10: `set_auto_target` with both coordinates present sets
AutoTarget to exactly that pair; with either coordinate omitted
(`None`) it clears AutoTarget. -/
theorem c10_set_auto_target (s : TCState) (la lo : ℚ) :
    (set_auto_target s (some la) (some lo)).auto_target = some { lat := la, lon := lo } ∧
    (set_auto_target s none (some lo)).auto_target = none ∧
    (set_auto_target s (some la) none).auto_target = none ∧
    (set_auto_target s none none).auto_target = none :=
  ⟨rfl, rfl, rfl, rfl⟩

end Rover
